import Mathlib

/-!
# job-executor-service: the entry point `cmd/job-executor-service/main.go`

A shallow embedding of the four functions of `main.go`
(`parseKeptnCloudEventPayload`, `processKeptnCloudEvent`, `main`, `_main`)
and of the package-level variables they read and write, followed by the
properties of the specification that concern them.

Conventions of the embedding.

* A Go `error` result is `Option String` (`none` is `nil`, `some m` is an error
  whose `Error()` text is `m`); a Go `(T, error)` result is `Except String T`.
* `log.Fatalf` prints and then ends the process (`os.Exit(1)`); no statement
  after it runs.  Functions that can reach it return a value that records this.
* Calls into other packages (`keptnv2.NewKeptn`, `event.DataAs`,
  `k8sutils.CreateResourceRequirements`, `strconv.ParseInt` as used by
  `envconfig`, `cloudevents.NewHTTP`, `cloudevents.NewClient`) are fields of
  `Library`; the process environment is a function `String → Option String`
  (`os.LookupEnv`).
* The package-level variables `keptnOptions`, `env` and
  `DefaultResourceRequirements` are the fields of `Globals`, passed in and
  handed back explicitly.
-/

namespace JobExecutor

/-! ## Data model -/

/-- The struct `envConfig` (main.go, lines 22 to 47). -/
structure envConfig where
  Port : Int
  Path : String
  Env : String
  ConfigurationServiceURL : String
  InitContainerConfigurationServiceAPIEndpoint : String
  JobNamespace : String
  KeptnAPIToken : String
  InitContainerImage : String
  DefaultResourceLimitsCPU : String
  DefaultResourceLimitsMemory : String
  DefaultResourceRequestsCPU : String
  DefaultResourceRequestsMemory : String
deriving DecidableEq, Repr

/-- The zero value of `envConfig`, the content of `var env envConfig`
before `main` runs. -/
def envConfig.zero : envConfig :=
  { Port := 0, Path := "", Env := "", ConfigurationServiceURL := "",
    InitContainerConfigurationServiceAPIEndpoint := "", JobNamespace := "",
    KeptnAPIToken := "", InitContainerImage := "",
    DefaultResourceLimitsCPU := "", DefaultResourceLimitsMemory := "",
    DefaultResourceRequestsCPU := "", DefaultResourceRequestsMemory := "" }

/-- The two fields of `keptn.KeptnOpts` that main.go touches. -/
structure KeptnOpts where
  UseLocalFileSystem : Bool
  ConfigurationServiceURL : String
deriving DecidableEq, Repr

/-- The value `keptn.KeptnOpts{}` of line 19. -/
def KeptnOpts.zero : KeptnOpts :=
  { UseLocalFileSystem := false, ConfigurationServiceURL := "" }

/-- A `v1.ResourceRequirements`: limits and requests for cpu and memory, each
a quantity kept in its textual form, or absent. -/
structure ResourceRequirements where
  LimitsCPU : Option String
  LimitsMemory : Option String
  RequestsCPU : Option String
  RequestsMemory : Option String
deriving DecidableEq, Repr

/-- The part of a `cloudevents.Event` that main.go reads: `event.Type()`,
`event.Context.GetID()`, and the extensions and encoded payload that the
library calls look at. -/
structure Event where
  ID : String
  Type_ : String
  Extensions : List (String × String)
  Data : String
deriving DecidableEq, Repr

/-- A `keptnv2.EventData` (project, stage and service of the payload). -/
structure EventData where
  Project : String
  Stage : String
  Service : String
deriving DecidableEq, Repr

/-- The value `&keptnv2.EventData{}` of line 87. -/
def EventData.zero : EventData := { Project := "", Stage := "", Service := "" }

/-- A `keptnv2.Keptn` handler as far as main.go reads it (`KeptnContext`,
line 81) together with the options it was built from. -/
structure Keptn where
  KeptnContext : String
  Opts : KeptnOpts
deriving DecidableEq, Repr

/-- The struct `k8sutils.JobSettings` as filled in on lines 98 to 104.
`DefaultResourceRequirements` is a pointer, `none` when nil. -/
structure JobSettings where
  JobNamespace : String
  InitContainerConfigurationServiceAPIEndpoint : String
  KeptnAPIToken : String
  InitContainerImage : String
  DefaultResourceRequirements : Option ResourceRequirements
deriving DecidableEq, Repr

/-- The struct `eventhandler.EventHandler` as filled in on lines 93 to 105. -/
structure EventHandler where
  Keptn : Keptn
  Event : Event
  EventData : EventData
  ServiceName : String
  JobSettings : JobSettings
deriving DecidableEq, Repr

/-- The package-level variables of main.go (lines 19, 20 and 54). -/
structure Globals where
  keptnOptions : KeptnOpts
  env : envConfig
  DefaultResourceRequirements : Option ResourceRequirements
deriving DecidableEq, Repr

/-- The package-level variables before `main` runs. -/
def Globals.initial : Globals :=
  { keptnOptions := KeptnOpts.zero, env := envConfig.zero,
    DefaultResourceRequirements := none }

/-- What `cloudevents.NewHTTP(WithPath(path), WithPort(port))` was asked for. -/
structure Protocol where
  Path : String
  Port : Int
deriving DecidableEq, Repr

/-- A `cloudevents.Client` over a protocol. -/
structure Client where
  Protocol : Protocol
deriving DecidableEq, Repr

/-- The functions of other packages that main.go calls.  Each is a parameter of
its own: main.go relates the result of none of them to that of another. -/
structure Library where
  /-- The call `keptnv2.NewKeptn(&event, keptnOptions)`. -/
  NewKeptn : Event → KeptnOpts → Except String Keptn
  /-- The call `event.DataAs(data)` with `data` a `*keptnv2.EventData`: the
  error, or the content of `data` after a successful decoding. -/
  DataAs : Event → EventData → Except String EventData
  /-- The call `k8sutils.CreateResourceRequirements(limitsCPU, limitsMemory,
  requestsCPU, requestsMemory)`. -/
  CreateResourceRequirements :
    String → String → String → String → Except String ResourceRequirements
  /-- The integer decoding `envconfig` applies to an `int` field. -/
  ParseInt : String → Except String Int
  /-- The call `cloudevents.NewHTTP(WithPath(path), WithPort(port))`. -/
  NewHTTP : String → Int → Except String Protocol
  /-- The call `cloudevents.NewClient(p)`. -/
  NewClient : Protocol → Except String Client

/-- The constant `ServiceName` (line 50). -/
def ServiceName : String := "job-executor-service"

/-! ## `strings.Contains` -/

/-- Whether the character list `p` is an initial segment of `s`. -/
def startsWith : List Char → List Char → Bool
  | _, [] => true
  | [], _ :: _ => false
  | c :: s, d :: p => c == d && startsWith s p

/-- Whether `p` occurs in `s` at some position. -/
def containsAt : List Char → List Char → Bool
  | [], p => startsWith [] p
  | c :: s, p => startsWith (c :: s) p || containsAt s p

/-- The function `strings.Contains(s, substr)`. -/
def stringsContains (s substr : String) : Bool :=
  containsAt s.toList substr.toList

/-! ## Event processing -/

/-- What a call leaves behind besides its result. -/
inductive Effect where
  /-- One line written through `log.Printf` or `log.Println`. -/
  | log (line : String)
  /-- The statement `go eventHandler.HandleEvent()`: a handler is started. -/
  | go (h : EventHandler)
deriving DecidableEq, Repr

/-- How a function that may call `log.Fatalf` ends. -/
inductive Step (α : Type) where
  /-- The function returned `a` to its caller. -/
  | ret (a : α)
  /-- The function called `log.Fatalf`: `msg` was logged and the process exited. -/
  | exit (msg : String)
deriving DecidableEq, Repr

/-- The function `parseKeptnCloudEventPayload` (lines 59 to 66).  The result is
the returned `error` and the content of `data` after the call.  On a decoding
error line 62 ends the process, so the `return err` of line 63 is never
reached. -/
def parseKeptnCloudEventPayload (lib : Library) (event : Event) (data : EventData) :
    Step (Option String × EventData) :=
  match lib.DataAs event data with
  | .error err => Step.exit ("Got Data Error: " ++ err)
  | .ok decoded => Step.ret (none, decoded)

/-- How a call of `processKeptnCloudEvent` ends. -/
inductive Completion where
  /-- It returned the given `error` to the receiver. -/
  | returned (err : Option String)
  /-- It reached `log.Fatalf`: the process exited. -/
  | fatal (msg : String)
deriving DecidableEq, Repr

/-- One call of `processKeptnCloudEvent`: its effects in order, how it ended,
and the package-level variables afterwards. -/
structure Run where
  effects : List Effect
  completion : Completion
  globals : Globals
deriving DecidableEq, Repr

/-- The function `processKeptnCloudEvent` (lines 73 to 111), run with the
package-level variables `g`. -/
def processKeptnCloudEvent (lib : Library) (g : Globals) (event : Event) : Run :=
  let e1 := [Effect.log "Initializing Keptn Handler"]
  match lib.NewKeptn event g.keptnOptions with
  | .error err =>
    { effects := e1
      completion := Completion.returned (some ("Could not create Keptn Handler: " ++ err))
      globals := g }
  | .ok myKeptn =>
    let e2 := e1 ++ [Effect.log
      ("gotEvent(" ++ event.Type_ ++ "): " ++ myKeptn.KeptnContext ++ " - " ++ event.ID)]
    if !stringsContains event.Type_ ".triggered" then
      { effects := e2, completion := Completion.returned none, globals := g }
    else
      match parseKeptnCloudEventPayload lib event EventData.zero with
      | Step.exit msg =>
        { effects := e2, completion := Completion.fatal msg, globals := g }
      | Step.ret (err, eventData) =>
        let e3 := match err with
          | some m =>
            e2 ++ [Effect.log ("failed to convert incoming cloudevent to event data: " ++ m)]
          | none => e2
        let eventHandler : EventHandler :=
          { Keptn := myKeptn
            Event := event
            EventData := eventData
            ServiceName := ServiceName
            JobSettings :=
              { JobNamespace := g.env.JobNamespace
                InitContainerConfigurationServiceAPIEndpoint :=
                  g.env.InitContainerConfigurationServiceAPIEndpoint
                KeptnAPIToken := g.env.KeptnAPIToken
                InitContainerImage := g.env.InitContainerImage
                DefaultResourceRequirements := g.DefaultResourceRequirements } }
        { effects := e3 ++ [Effect.go eventHandler]
          completion := Completion.returned none
          globals := g }

/-- The handlers a list of effects started, in order. -/
def startedHandlers : List Effect → List EventHandler
  | [] => []
  | Effect.go h :: es => h :: startedHandlers es
  | Effect.log _ :: es => startedHandlers es

/-- The handlers one call started. -/
def Run.started (r : Run) : List EventHandler := startedHandlers r.effects

/-- The receiver of line 172 hands every inbound event to
`processKeptnCloudEvent`.  The deliveries are taken one after the other; each
runs with the package-level variables the previous one left.  The effects of
all deliveries are collected in order; a delivery that ends the process ends
the sequence. -/
def deliverAll (lib : Library) (g : Globals) : List Event → List Effect
  | [] => []
  | event :: rest =>
    let r := processKeptnCloudEvent lib g event
    match r.completion with
    | Completion.fatal _ => r.effects
    | Completion.returned _ => r.effects ++ deliverAll lib r.globals rest

/-! ## Startup -/

/-- The struct tags of one field of `envConfig`: the variable named by
`envconfig:"..."`, the `default:"..."` text (empty when there is none) and
whether `required:"true"` is present. -/
structure FieldTag where
  Key : String
  Default : String
  Required : Bool
deriving DecidableEq, Repr

/-- The value `envconfig.Process` finds for one field: the variable when it is
set (also when set to the empty string), otherwise the default when there is
one; with neither, an error for a required field and `none` (the field is
skipped) for an optional one. -/
def lookupValue (LookupEnv : String → Option String) (t : FieldTag) :
    Except String (Option String) :=
  match LookupEnv t.Key with
  | some value => .ok (some value)
  | none =>
    if t.Default ≠ "" then .ok (some t.Default)
    else if t.Required then .error ("required key " ++ t.Key ++ " missing value")
    else .ok none

/-- One `string` field of `envconfig.Process`. -/
def processString (LookupEnv : String → Option String) (t : FieldTag)
    (set : envConfig → String → envConfig) (spec : envConfig) : Except String envConfig :=
  match lookupValue LookupEnv t with
  | .error err => .error err
  | .ok none => .ok spec
  | .ok (some value) => .ok (set spec value)

/-- One `int` field of `envconfig.Process`; a value that does not decode is a
`ParseError`. -/
def processInt (lib : Library) (LookupEnv : String → Option String) (t : FieldTag)
    (fieldName : String) (set : envConfig → Int → envConfig) (spec : envConfig) :
    Except String envConfig :=
  match lookupValue LookupEnv t with
  | .error err => .error err
  | .ok none => .ok spec
  | .ok (some value) =>
    match lib.ParseInt value with
    | .ok n => .ok (set spec n)
    | .error err =>
      .error ("envconfig.Process: assigning " ++ t.Key ++ " to " ++ fieldName ++
        ": converting \x27" ++ value ++ "\x27 to type int. details: " ++ err)

/-- The call `envconfig.Process("", &env)` of line 121 on the struct of lines
22 to 47: the fields are taken in declaration order, each with its own tags,
and the first error ends the call. -/
def envconfigProcess (lib : Library) (LookupEnv : String → Option String)
    (spec : envConfig) : Except String envConfig :=
  processInt lib LookupEnv ⟨"RCV_PORT", "8080", false⟩ "Port"
      (fun e n => { e with Port := n }) spec
  >>= processString LookupEnv ⟨"RCV_PATH", "/", false⟩
      (fun e v => { e with Path := v })
  >>= processString LookupEnv ⟨"ENV", "local", false⟩
      (fun e v => { e with Env := v })
  >>= processString LookupEnv ⟨"CONFIGURATION_SERVICE", "", false⟩
      (fun e v => { e with ConfigurationServiceURL := v })
  >>= processString LookupEnv
      ⟨"INIT_CONTAINER_CONFIGURATION_SERVICE_API_ENDPOINT", "", true⟩
      (fun e v => { e with InitContainerConfigurationServiceAPIEndpoint := v })
  >>= processString LookupEnv ⟨"JOB_NAMESPACE", "", true⟩
      (fun e v => { e with JobNamespace := v })
  >>= processString LookupEnv ⟨"KEPTN_API_TOKEN", "", false⟩
      (fun e v => { e with KeptnAPIToken := v })
  >>= processString LookupEnv ⟨"INIT_CONTAINER_IMAGE", "", false⟩
      (fun e v => { e with InitContainerImage := v })
  >>= processString LookupEnv ⟨"DEFAULT_RESOURCE_LIMITS_CPU", "", false⟩
      (fun e v => { e with DefaultResourceLimitsCPU := v })
  >>= processString LookupEnv ⟨"DEFAULT_RESOURCE_LIMITS_MEMORY", "", false⟩
      (fun e v => { e with DefaultResourceLimitsMemory := v })
  >>= processString LookupEnv ⟨"DEFAULT_RESOURCE_REQUESTS_CPU", "", false⟩
      (fun e v => { e with DefaultResourceRequestsCPU := v })
  >>= processString LookupEnv ⟨"DEFAULT_RESOURCE_REQUESTS_MEMORY", "", false⟩
      (fun e v => { e with DefaultResourceRequestsMemory := v })

/-- How `_main` ends. -/
inductive StartupEnd where
  /-- A `log.Fatalf` of lines 164 or 168: the process exited, no receiver. -/
  | fatal (msg : String)
  /-- Line 172 was reached: `c.StartReceiver(ctx, processKeptnCloudEvent)` runs
  and events are accepted. -/
  | receiving (c : Client)
deriving DecidableEq, Repr

/-- One run of `_main`: the lines logged, the package-level variables it
leaves, and how it ended. -/
structure Startup where
  log : List String
  globals : Globals
  outcome : StartupEnd
deriving DecidableEq, Repr

/-- The function `_main` (lines 142 to 175), run with the package-level
variables `g`; its parameter `env` shadows the package-level `env`, and its
parameter `args` is not read.  The run is followed up to the start of the
receiver on line 172, which blocks while events are served. -/
def _main (lib : Library) (g : Globals) (_args : List String) (env : envConfig) : Startup :=
  let l1 : List String :=
    if env.Env = "local" then
      ["env=local: Running with local filesystem to fetch resources"]
    else []
  let opts1 : KeptnOpts :=
    if env.Env = "local" then { g.keptnOptions with UseLocalFileSystem := true }
    else g.keptnOptions
  let opts2 : KeptnOpts := { opts1 with ConfigurationServiceURL := env.ConfigurationServiceURL }
  let g2 : Globals := { g with keptnOptions := opts2 }
  let l2 := l1 ++ ["Starting job-executor-service...",
    "    on Port = " ++ toString env.Port ++ "; Path=" ++ env.Path,
    "Creating new http handler"]
  match lib.NewHTTP env.Path env.Port with
  | .error err =>
    { log := l2, globals := g2, outcome := StartupEnd.fatal ("failed to create client, " ++ err) }
  | .ok p =>
    match lib.NewClient p with
    | .error err =>
      { log := l2, globals := g2,
        outcome := StartupEnd.fatal ("failed to create client, " ++ err) }
    | .ok c =>
      { log := l2 ++ ["Starting receiver"], globals := g2, outcome := StartupEnd.receiving c }

/-- How `main` ends. -/
inductive MainResult where
  /-- A `log.Fatalf` of lines 122 or 133: the process exited inside `main`,
  before the call of `_main`. -/
  | fatal (msg : String)
  /-- Line 136 was reached: `_main` was called with the package-level
  variables `g`, and ran as `s`. -/
  | entered (g : Globals) (s : Startup)
deriving DecidableEq, Repr

/-- The function `main` (lines 120 to 137), from the initial package-level
variables, with the process environment `LookupEnv` and arguments `osArgs`. -/
def main (lib : Library) (LookupEnv : String → Option String) (osArgs : List String) :
    MainResult :=
  let g0 := Globals.initial
  match envconfigProcess lib LookupEnv g0.env with
  | .error err => MainResult.fatal ("Failed to process env var: " ++ err)
  | .ok env1 =>
    let g1 : Globals := { g0 with env := env1 }
    match lib.CreateResourceRequirements g1.env.DefaultResourceLimitsCPU
        g1.env.DefaultResourceLimitsMemory g1.env.DefaultResourceRequestsCPU
        g1.env.DefaultResourceRequestsMemory with
    | .error err =>
      MainResult.fatal ("unable to create default resource requirements: " ++ err)
    | .ok r =>
      let g2 : Globals := { g1 with DefaultResourceRequirements := some r }
      MainResult.entered g2 (_main lib g2 osArgs.tail g2.env)

/-- Whether `main` got as far as calling `_main`. -/
def MainResult.calledMain : MainResult → Bool
  | MainResult.fatal _ => false
  | MainResult.entered _ _ => true

/-- Whether the event receiver was started (line 172). -/
def MainResult.receiverStarted : MainResult → Bool
  | MainResult.entered _ ⟨_, _, StartupEnd.receiving _⟩ => true
  | _ => false

/-- Whether the process ended in a `log.Fatalf`. -/
def MainResult.exitedFatally : MainResult → Bool
  | MainResult.fatal _ => true
  | MainResult.entered _ ⟨_, _, StartupEnd.fatal _⟩ => true
  | MainResult.entered _ ⟨_, _, StartupEnd.receiving _⟩ => false

/-! ## The resource envelope resolver, and a library to run the code on -/

/-- Modelled from the spec: the function `k8sutils.CreateResourceRequirements`
of package `pkg/k8sutils`, which is not among the sources; this follows the
"Resource Envelope Resolver" of the specification.  Each input is the empty
string (unset) or a quantity string; a non-empty string that `parseQuantity`
does not read fails with `InvalidQuantity`; a request above its limit, both
set, fails with `InvalidQuantity`; an unset input leaves its field without a
value. -/
def resolve (parseQuantity : String → Option Nat)
    (limitsCPU limitsMem requestsCPU requestsMem : String) :
    Except String ResourceRequirements :=
  let bad (s : String) : Bool := s ≠ "" && (parseQuantity s).isNone
  let above (request limit : String) : Bool :=
    request ≠ "" && limit ≠ "" &&
      match parseQuantity request, parseQuantity limit with
      | some r, some l => decide (l < r)
      | _, _ => false
  let field (s : String) : Option String := if s = "" then none else some s
  if bad limitsCPU || bad limitsMem || bad requestsCPU || bad requestsMem then
    .error "InvalidQuantity"
  else if above requestsCPU limitsCPU || above requestsMem limitsMem then
    .error "InvalidQuantity"
  else
    .ok { LimitsCPU := field limitsCPU, LimitsMemory := field limitsMem,
          RequestsCPU := field requestsCPU, RequestsMemory := field requestsMem }

/-- A process environment given as a list of `NAME`, value pairs. -/
def lookupIn (vars : List (String × String)) (name : String) : Option String :=
  match vars with
  | [] => none
  | (k, v) :: rest => if k = name then some v else lookupIn rest name

/-- The number written by a non-empty string of decimal digits. -/
def decimal (s : String) : Option Nat :=
  match s.toList with
  | [] => none
  | cs => cs.foldl (fun acc c =>
      match acc with
      | some n => if c.isDigit then some (10 * n + (c.toNat - 48)) else none
      | none => none) (some 0)

/-- A library on which the code can be run in examples.  `NewKeptn` needs the
`shkeptncontext` extension of the event; `DataAs` leaves `data` as it is for an
empty payload, reads the payload `\x7b"project":"sockshop"\x7d` and rejects
every other one; quantities and ports are plain decimal numbers; the HTTP
protocol and the client are always created. -/
def exampleLibrary : Library :=
  { NewKeptn := fun event opts =>
      match lookupIn event.Extensions "shkeptncontext" with
      | some ctx => .ok { KeptnContext := ctx, Opts := opts }
      | none => .error "\x22shkeptncontext\x22 not found"
    DataAs := fun event data =>
      if event.Data = "" then .ok data
      else if event.Data = "\x7b\x22project\x22:\x22sockshop\x22\x7d" then
        .ok { data with Project := "sockshop" }
      else .error "failed to unmarshal"
    CreateResourceRequirements := resolve decimal
    ParseInt := fun s =>
      match decimal s with
      | some n => .ok (Int.ofNat n)
      | none => .error "invalid syntax"
    NewHTTP := fun path port => .ok { Path := path, Port := port }
    NewClient := fun p => .ok { Protocol := p } }

/-! ## Example inputs -/

/-- A task-triggered event with identity `evt-123`, carrying the Keptn context
and no payload. -/
def triggeredEvent : Event :=
  { ID := "evt-123", Type_ := "sh.keptn.event.test.triggered",
    Extensions := [("shkeptncontext", "ctx-1")], Data := "" }

/-- A finished event without the Keptn context extension. -/
def finishedEvent : Event :=
  { ID := "evt-124", Type_ := "sh.keptn.event.test.finished",
    Extensions := [], Data := "" }

/-- A task-triggered event whose payload does not decode. -/
def undecodableEvent : Event :=
  { ID := "evt-125", Type_ := "sh.keptn.event.test.triggered",
    Extensions := [("shkeptncontext", "ctx-1")], Data := "oops" }

/-- An event whose type has `.triggered` in the middle. -/
def infixEvent : Event :=
  { ID := "evt-126", Type_ := "sh.keptn.event.test.triggered.extra",
    Extensions := [("shkeptncontext", "ctx-1")], Data := "" }

/-- A process environment that sets the two required variables only. -/
def minimalEnvironment : String → Option String :=
  lookupIn [("JOB_NAMESPACE", "jobs"),
    ("INIT_CONTAINER_CONFIGURATION_SERVICE_API_ENDPOINT", "http://configuration-service:8080")]

/-- The minimal environment with an unreadable default cpu limit. -/
def badQuantityEnvironment : String → Option String :=
  lookupIn [("JOB_NAMESPACE", "jobs"),
    ("INIT_CONTAINER_CONFIGURATION_SERVICE_API_ENDPOINT", "http://configuration-service:8080"),
    ("DEFAULT_RESOURCE_LIMITS_CPU", "abc")]

/-- The configuration `envconfig.Process` reads from `minimalEnvironment`. -/
def minimalConfig : envConfig :=
  { envConfig.zero with
    Port := 8080, Path := "/", Env := "local", JobNamespace := "jobs",
    InitContainerConfigurationServiceAPIEndpoint := "http://configuration-service:8080" }

/-- The configuration of `minimalEnvironment` with `ENV=runlocal` added. -/
def runlocalConfig : envConfig := { minimalConfig with Env := "runlocal" }

/-- The resource requirements with every field unset. -/
def unsetResources : ResourceRequirements :=
  { LimitsCPU := none, LimitsMemory := none, RequestsCPU := none, RequestsMemory := none }

/-- The package-level variables with which `main` calls `_main` when started
in `minimalEnvironment`. -/
def minimalGlobals : Globals :=
  { keptnOptions := KeptnOpts.zero, env := minimalConfig,
    DefaultResourceRequirements := some unsetResources }

/-- The handler started for `triggeredEvent` after startup in
`minimalEnvironment`. -/
def minimalHandler : EventHandler :=
  { Keptn := { KeptnContext := "ctx-1",
               Opts := { UseLocalFileSystem := true, ConfigurationServiceURL := "" } }
    Event := triggeredEvent
    EventData := EventData.zero
    ServiceName := "job-executor-service"
    JobSettings :=
      { JobNamespace := "jobs"
        InitContainerConfigurationServiceAPIEndpoint := "http://configuration-service:8080"
        KeptnAPIToken := ""
        InitContainerImage := ""
        DefaultResourceRequirements := some unsetResources } }

/-! ## Lemmas on `processKeptnCloudEvent` -/

theorem startedHandlers_append (xs ys : List Effect) :
    startedHandlers (xs ++ ys) = startedHandlers xs ++ startedHandlers ys := by
  induction xs with
  | nil => rfl
  | cons x xs ih =>
    cases x with
    | log line => simpa [startedHandlers] using ih
    | go h => simp [startedHandlers, ih]

/-- The run when the Keptn handler cannot be created (lines 76 to 79). -/
theorem process_of_newKeptn_error (lib : Library) (g : Globals) (event : Event)
    (err : String) (hk : lib.NewKeptn event g.keptnOptions = .error err) :
    processKeptnCloudEvent lib g event =
      { effects := [Effect.log "Initializing Keptn Handler"]
        completion := Completion.returned (some ("Could not create Keptn Handler: " ++ err))
        globals := g } := by
  simp [processKeptnCloudEvent, hk]

/-- The run for an event whose type lacks `.triggered` (lines 83 to 85). -/
theorem process_of_not_triggered (lib : Library) (g : Globals) (event : Event)
    (k : Keptn) (hk : lib.NewKeptn event g.keptnOptions = .ok k)
    (ht : stringsContains event.Type_ ".triggered" = false) :
    processKeptnCloudEvent lib g event =
      { effects := [Effect.log "Initializing Keptn Handler",
          Effect.log ("gotEvent(" ++ event.Type_ ++ "): " ++ k.KeptnContext ++ " - " ++ event.ID)]
        completion := Completion.returned none
        globals := g } := by
  simp [processKeptnCloudEvent, hk, ht]

/-- The run for a triggered event whose payload does not decode (line 62). -/
theorem process_of_decode_error (lib : Library) (g : Globals) (event : Event)
    (k : Keptn) (err : String) (hk : lib.NewKeptn event g.keptnOptions = .ok k)
    (ht : stringsContains event.Type_ ".triggered" = true)
    (hd : lib.DataAs event EventData.zero = .error err) :
    processKeptnCloudEvent lib g event =
      { effects := [Effect.log "Initializing Keptn Handler",
          Effect.log ("gotEvent(" ++ event.Type_ ++ "): " ++ k.KeptnContext ++ " - " ++ event.ID)]
        completion := Completion.fatal ("Got Data Error: " ++ err)
        globals := g } := by
  simp [processKeptnCloudEvent, parseKeptnCloudEventPayload, hk, ht, hd]

/-- The run for a triggered event whose payload decodes (lines 87 to 110). -/
theorem process_of_decoded (lib : Library) (g : Globals) (event : Event)
    (k : Keptn) (d : EventData) (hk : lib.NewKeptn event g.keptnOptions = .ok k)
    (ht : stringsContains event.Type_ ".triggered" = true)
    (hd : lib.DataAs event EventData.zero = .ok d) :
    processKeptnCloudEvent lib g event =
      { effects := [Effect.log "Initializing Keptn Handler",
          Effect.log ("gotEvent(" ++ event.Type_ ++ "): " ++ k.KeptnContext ++ " - " ++ event.ID),
          Effect.go
            { Keptn := k, Event := event, EventData := d, ServiceName := ServiceName
              JobSettings :=
                { JobNamespace := g.env.JobNamespace
                  InitContainerConfigurationServiceAPIEndpoint :=
                    g.env.InitContainerConfigurationServiceAPIEndpoint
                  KeptnAPIToken := g.env.KeptnAPIToken
                  InitContainerImage := g.env.InitContainerImage
                  DefaultResourceRequirements := g.DefaultResourceRequirements } }]
        completion := Completion.returned none
        globals := g } := by
  simp [processKeptnCloudEvent, parseKeptnCloudEventPayload, hk, ht, hd]

/-- The four ways a call of `processKeptnCloudEvent` can go. -/
theorem process_cases (lib : Library) (g : Globals) (event : Event) :
    (∃ err, lib.NewKeptn event g.keptnOptions = .error err) ∨
    (∃ k, lib.NewKeptn event g.keptnOptions = .ok k ∧
      stringsContains event.Type_ ".triggered" = false) ∨
    (∃ k err, lib.NewKeptn event g.keptnOptions = .ok k ∧
      stringsContains event.Type_ ".triggered" = true ∧
      lib.DataAs event EventData.zero = .error err) ∨
    (∃ k d, lib.NewKeptn event g.keptnOptions = .ok k ∧
      stringsContains event.Type_ ".triggered" = true ∧
      lib.DataAs event EventData.zero = .ok d) := by
  cases hk : lib.NewKeptn event g.keptnOptions with
  | error err => exact Or.inl ⟨err, rfl⟩
  | ok k =>
    cases ht : stringsContains event.Type_ ".triggered" with
    | false => exact Or.inr (Or.inl ⟨k, rfl, rfl⟩)
    | true =>
      cases hd : lib.DataAs event EventData.zero with
      | error err => exact Or.inr (Or.inr (Or.inl ⟨k, err, rfl, rfl, rfl⟩))
      | ok d => exact Or.inr (Or.inr (Or.inr ⟨k, d, rfl, rfl, rfl⟩))

/-- `stringsContains` is substring containment: `strings.Contains`. -/
theorem startsWith_iff (s p : List Char) : startsWith s p = true ↔ p <+: s := by
  induction p generalizing s with
  | nil => simp [startsWith]
  | cons d p ih =>
    cases s with
    | nil => simp [startsWith]
    | cons c s =>
      simp only [startsWith, Bool.and_eq_true, beq_iff_eq, ih, List.cons_prefix_cons]
      constructor
      · rintro ⟨h1, h2⟩; exact ⟨h1.symm, h2⟩
      · rintro ⟨h1, h2⟩; exact ⟨h1.symm, h2⟩

theorem containsAt_iff (s p : List Char) : containsAt s p = true ↔ p <:+: s := by
  induction s with
  | nil =>
    simp only [containsAt, startsWith_iff]
    constructor
    · intro h; exact h.isInfix
    · intro h; rw [List.eq_nil_of_infix_nil h]
  | cons c s ih =>
    simp only [containsAt, Bool.or_eq_true, startsWith_iff, ih, List.infix_cons_iff]

theorem stringsContains_iff (s substr : String) :
    stringsContains s substr = true ↔ substr.toList <:+: s.toList := by
  simp [stringsContains, containsAt_iff]

/-! ## Event filtering and handler start -/

/-- C10: every call of `processKeptnCloudEvent` starts at most one handler; it
starts exactly one precisely when the Keptn handler is created, the type
contains `.triggered` and the payload decodes, and then the handler carries
the event, the decoded data and the service name `job-executor-service` and the
call returns nil; the call returns a non-nil error exactly when the creation of
the Keptn handler fails, and then the message is
`Could not create Keptn Handler: ` followed by the underlying message and no
handler is started. -/
theorem processKeptnCloudEvent_handler_and_error (lib : Library) (g : Globals)
    (event : Event) :
    (processKeptnCloudEvent lib g event).started.length ≤ 1 ∧
    ((processKeptnCloudEvent lib g event).started.length = 1 ↔
      ((∃ k, lib.NewKeptn event g.keptnOptions = .ok k) ∧
        stringsContains event.Type_ ".triggered" = true ∧
        (∃ d, lib.DataAs event EventData.zero = .ok d))) ∧
    (∀ k d, lib.NewKeptn event g.keptnOptions = .ok k →
      stringsContains event.Type_ ".triggered" = true →
      lib.DataAs event EventData.zero = .ok d →
      (∃ h, (processKeptnCloudEvent lib g event).started = [h] ∧ h.Event = event ∧
        h.EventData = d ∧ h.Keptn = k ∧ h.ServiceName = "job-executor-service") ∧
      (processKeptnCloudEvent lib g event).completion = Completion.returned none) ∧
    ((∃ m, (processKeptnCloudEvent lib g event).completion = Completion.returned (some m)) ↔
      (∃ err, lib.NewKeptn event g.keptnOptions = .error err)) ∧
    (∀ err, lib.NewKeptn event g.keptnOptions = .error err →
      (processKeptnCloudEvent lib g event).completion =
        Completion.returned (some ("Could not create Keptn Handler: " ++ err)) ∧
      (processKeptnCloudEvent lib g event).started = []) := by
  rcases process_cases lib g event with ⟨err, hk⟩ | ⟨k, hk, ht⟩ | ⟨k, err, hk, ht, hd⟩ |
    ⟨k, d, hk, ht, hd⟩
  · rw [process_of_newKeptn_error lib g event err hk]
    simp [Run.started, startedHandlers, hk]
  · rw [process_of_not_triggered lib g event k hk ht]
    simp [Run.started, startedHandlers, hk, ht]
  · rw [process_of_decode_error lib g event k err hk ht hd]
    simp [Run.started, startedHandlers, hk, ht, hd]
  · rw [process_of_decoded lib g event k d hk ht hd]
    simp [Run.started, startedHandlers, hk, ht, hd, ServiceName]

/-- Witness for C10 on `triggeredEvent`: one handler, carrying the event, and
a nil result. -/
theorem processKeptnCloudEvent_handler_and_error_witness :
    (∃ h, (processKeptnCloudEvent exampleLibrary Globals.initial triggeredEvent).started = [h] ∧
        h.Event = triggeredEvent ∧ h.EventData = EventData.zero ∧
        h.Keptn = { KeptnContext := "ctx-1", Opts := KeptnOpts.zero } ∧
        h.ServiceName = "job-executor-service") ∧
      (processKeptnCloudEvent exampleLibrary Globals.initial triggeredEvent).completion =
        Completion.returned none :=
  (processKeptnCloudEvent_handler_and_error exampleLibrary Globals.initial triggeredEvent).2.2.1
    { KeptnContext := "ctx-1", Opts := KeptnOpts.zero } EventData.zero
    rfl (by decide) rfl

/-- C1 as stated fails: `finishedEvent` has a type without `.triggered`, the
creation of its Keptn handler fails, and the call returns an error, not nil. -/
theorem not_triggered_returns_error :
    stringsContains finishedEvent.Type_ ".triggered" = false ∧
    (processKeptnCloudEvent exampleLibrary Globals.initial finishedEvent).completion =
      Completion.returned
        (some "Could not create Keptn Handler: \x22shkeptncontext\x22 not found") := by
  decide

/-- C1, amended: for an event whose type does not contain `.triggered` no
handler is started and the package-level variables are left as they were; the
call returns nil whenever the Keptn handler is created, and the creation error
when it is not. -/
theorem not_triggered_is_ignored (lib : Library) (g : Globals) (event : Event)
    (ht : stringsContains event.Type_ ".triggered" = false) :
    (processKeptnCloudEvent lib g event).started = [] ∧
    (processKeptnCloudEvent lib g event).globals = g ∧
    (∀ k, lib.NewKeptn event g.keptnOptions = .ok k →
      (processKeptnCloudEvent lib g event).completion = Completion.returned none) ∧
    (∀ err, lib.NewKeptn event g.keptnOptions = .error err →
      (processKeptnCloudEvent lib g event).completion =
        Completion.returned (some ("Could not create Keptn Handler: " ++ err))) := by
  cases hk : lib.NewKeptn event g.keptnOptions with
  | error err =>
    rw [process_of_newKeptn_error lib g event err hk]
    simp [Run.started, startedHandlers]
  | ok k =>
    rw [process_of_not_triggered lib g event k hk ht]
    simp [Run.started, startedHandlers]

/-- Witness for amended C1: a finished event that carries the Keptn context
is ignored with a nil result. -/
theorem not_triggered_is_ignored_witness :
    stringsContains "sh.keptn.event.test.finished" ".triggered" = false ∧
    (processKeptnCloudEvent exampleLibrary Globals.initial
      { triggeredEvent with Type_ := "sh.keptn.event.test.finished" }).started = [] ∧
    (processKeptnCloudEvent exampleLibrary Globals.initial
      { triggeredEvent with Type_ := "sh.keptn.event.test.finished" }).completion =
        Completion.returned none :=
  ⟨by decide,
   (not_triggered_is_ignored exampleLibrary Globals.initial
      { triggeredEvent with Type_ := "sh.keptn.event.test.finished" } (by decide)).1,
   (not_triggered_is_ignored exampleLibrary Globals.initial
      { triggeredEvent with Type_ := "sh.keptn.event.test.finished" } (by decide)).2.2.1
      { KeptnContext := "ctx-1", Opts := KeptnOpts.zero } rfl⟩

/-- C5 as stated fails: the type of `infixEvent` does not end in `.triggered`
(it has `.triggered` in the middle), yet one handler is started for it. -/
theorem handler_started_without_triggered_suffix :
    (¬ ".triggered".toList <:+ infixEvent.Type_.toList) ∧
    ((processKeptnCloudEvent exampleLibrary Globals.initial infixEvent).started.map
      (fun h => h.Event.ID)) = ["evt-126"] := by
  decide

/-- C5, amended: a handler is started only for events whose type contains
`.triggered`; where it occurs in the type does not matter. -/
theorem handler_started_only_if_type_contains_triggered (lib : Library) (g : Globals)
    (event : Event) (h : EventHandler)
    (hs : h ∈ (processKeptnCloudEvent lib g event).started) :
    ".triggered".toList <:+: event.Type_.toList := by
  rw [← stringsContains_iff]
  rcases process_cases lib g event with ⟨err, hk⟩ | ⟨k, hk, ht⟩ | ⟨k, err, hk, ht, hd⟩ |
    ⟨k, d, hk, ht, hd⟩
  · rw [process_of_newKeptn_error lib g event err hk] at hs
    simp [Run.started, startedHandlers] at hs
  · rw [process_of_not_triggered lib g event k hk ht] at hs
    simp [Run.started, startedHandlers] at hs
  · exact ht
  · exact ht

/-- Witness for amended C5 on `triggeredEvent` and the handler started for it. -/
theorem handler_started_only_if_type_contains_triggered_witness :
    ".triggered".toList <:+: "sh.keptn.event.test.triggered".toList :=
  handler_started_only_if_type_contains_triggered exampleLibrary Globals.initial triggeredEvent
    { Keptn := { KeptnContext := "ctx-1", Opts := KeptnOpts.zero }
      Event := triggeredEvent
      EventData := EventData.zero
      ServiceName := "job-executor-service"
      JobSettings :=
        { JobNamespace := "", InitContainerConfigurationServiceAPIEndpoint := "",
          KeptnAPIToken := "", InitContainerImage := "",
          DefaultResourceRequirements := none } }
    (by decide)

/-! ## Payload decoding -/

/-- C3 as stated fails: `undecodableEvent` is a triggered event whose payload
does not decode; the call neither returns nor leaves anything but two log
lines, it ends the process. -/
theorem undecodable_payload_ends_process :
    stringsContains undecodableEvent.Type_ ".triggered" = true ∧
    (processKeptnCloudEvent exampleLibrary Globals.initial undecodableEvent).completion =
      Completion.fatal "Got Data Error: failed to unmarshal" ∧
    (processKeptnCloudEvent exampleLibrary Globals.initial undecodableEvent).effects =
      [Effect.log "Initializing Keptn Handler",
       Effect.log "gotEvent(sh.keptn.event.test.triggered): ctx-1 - evt-125"] := by
  decide

/-- C3, amended: for a triggered event whose payload cannot be decoded no
handler is started, and the call emits nothing: every effect it has is a log
line. -/
theorem undecodable_payload_starts_no_handler (lib : Library) (g : Globals) (event : Event)
    (err : String) (ht : stringsContains event.Type_ ".triggered" = true)
    (hd : lib.DataAs event EventData.zero = .error err) :
    (processKeptnCloudEvent lib g event).started = [] ∧
    ∀ eff ∈ (processKeptnCloudEvent lib g event).effects, ∃ line, eff = Effect.log line := by
  cases hk : lib.NewKeptn event g.keptnOptions with
  | error e =>
    rw [process_of_newKeptn_error lib g event e hk]
    simp [Run.started, startedHandlers]
  | ok k =>
    rw [process_of_decode_error lib g event k err hk ht hd]
    simp [Run.started, startedHandlers]

/-- Witness for amended C3 on `undecodableEvent`. -/
theorem undecodable_payload_starts_no_handler_witness :
    stringsContains undecodableEvent.Type_ ".triggered" = true ∧
    (processKeptnCloudEvent exampleLibrary Globals.initial undecodableEvent).started = [] :=
  ⟨by decide,
   (undecodable_payload_starts_no_handler exampleLibrary Globals.initial undecodableEvent
      "failed to unmarshal" (by decide) rfl).1⟩

/-- C4 fails on the code: whenever the Keptn handler is created for a triggered
event and the payload does not decode, `parseKeptnCloudEventPayload` reaches
`log.Fatalf` and the call of `processKeptnCloudEvent` ends the process with the
message `Got Data Error: ` followed by the decoding error. -/
theorem decode_failure_is_fatal (lib : Library) (g : Globals) (event : Event)
    (k : Keptn) (err : String) (hk : lib.NewKeptn event g.keptnOptions = .ok k)
    (ht : stringsContains event.Type_ ".triggered" = true)
    (hd : lib.DataAs event EventData.zero = .error err) :
    parseKeptnCloudEventPayload lib event EventData.zero =
      Step.exit ("Got Data Error: " ++ err) ∧
    (processKeptnCloudEvent lib g event).completion =
      Completion.fatal ("Got Data Error: " ++ err) := by
  rw [process_of_decode_error lib g event k err hk ht hd]
  simp [parseKeptnCloudEventPayload, hd]

/-- The failing input of C4: `undecodableEvent` after startup. -/
theorem decode_failure_is_fatal_witness :
    parseKeptnCloudEventPayload exampleLibrary undecodableEvent EventData.zero =
      Step.exit ("Got Data Error: " ++ "failed to unmarshal") ∧
    (processKeptnCloudEvent exampleLibrary Globals.initial undecodableEvent).completion =
      Completion.fatal ("Got Data Error: " ++ "failed to unmarshal") :=
  decode_failure_is_fatal exampleLibrary Globals.initial undecodableEvent
    { KeptnContext := "ctx-1", Opts := KeptnOpts.zero } "failed to unmarshal" rfl (by decide) rfl

/-! ## Repeated delivery -/

/-- C2 as stated fails: two deliveries of `triggeredEvent` (identity
`evt-123`) start two handlers for it. -/
theorem second_delivery_starts_second_handler :
    (startedHandlers
      (deliverAll exampleLibrary Globals.initial [triggeredEvent, triggeredEvent])).map
      (fun h => h.Event.ID) = ["evt-123", "evt-123"] := by
  decide

/-- C2, amended: `processKeptnCloudEvent` keeps no record of the events it has
seen; when a delivery of an event starts a handler, a second delivery of the
same event starts the same handler once more, so the two deliveries start two
handlers for it. -/
theorem second_delivery_starts_handler_again (lib : Library) (g : Globals) (event : Event)
    (h : EventHandler) (hs : (processKeptnCloudEvent lib g event).started = [h]) :
    startedHandlers (deliverAll lib g [event, event]) = [h, h] := by
  rcases process_cases lib g event with ⟨err, hk⟩ | ⟨k, hk, ht⟩ | ⟨k, err, hk, ht, hd⟩ |
    ⟨k, d, hk, ht, hd⟩
  · rw [process_of_newKeptn_error lib g event err hk] at hs
    simp [Run.started, startedHandlers] at hs
  · rw [process_of_not_triggered lib g event k hk ht] at hs
    simp [Run.started, startedHandlers] at hs
  · rw [process_of_decode_error lib g event k err hk ht hd] at hs
    simp [Run.started, startedHandlers] at hs
  · have hp := process_of_decoded lib g event k d hk ht hd
    rw [hp] at hs
    simp only [Run.started, startedHandlers, List.cons.injEq, and_true] at hs
    simp only [deliverAll, hp, List.append_nil, startedHandlers_append, startedHandlers]
    simp [hs]

/-- Witness for amended C2 on `triggeredEvent`. -/
theorem second_delivery_starts_handler_again_witness :
    (startedHandlers
      (deliverAll exampleLibrary Globals.initial [triggeredEvent, triggeredEvent])).length = 2 :=
  congrArg List.length
    (second_delivery_starts_handler_again exampleLibrary Globals.initial triggeredEvent
      { Keptn := { KeptnContext := "ctx-1", Opts := KeptnOpts.zero }
        Event := triggeredEvent
        EventData := EventData.zero
        ServiceName := "job-executor-service"
        JobSettings :=
          { JobNamespace := "", InitContainerConfigurationServiceAPIEndpoint := "",
            KeptnAPIToken := "", InitContainerImage := "",
            DefaultResourceRequirements := none } }
      (by decide))

/-! ## Startup -/

theorem bind_error_left {α β : Type} (x : Except String α) (f : α → Except String β)
    (hx : ∃ err, x = .error err) : ∃ err, (x >>= f) = .error err := by
  obtain ⟨err, rfl⟩ := hx
  exact ⟨err, rfl⟩

theorem bind_error_right {α β : Type} (x : Except String α) (f : α → Except String β)
    (hf : ∀ a, ∃ err, f a = .error err) : ∃ err, (x >>= f) = .error err := by
  cases x with
  | error err => exact ⟨err, rfl⟩
  | ok a => exact hf a

/-- A required field without default whose variable is unset is an error. -/
theorem processString_required_unset (LookupEnv : String → Option String) (key : String)
    (set : envConfig → String → envConfig) (spec : envConfig)
    (hunset : LookupEnv key = none) :
    ∃ err, processString LookupEnv ⟨key, "", true⟩ set spec = .error err := by
  simp [processString, lookupValue, hunset]

/-- With `INIT_CONTAINER_CONFIGURATION_SERVICE_API_ENDPOINT` or `JOB_NAMESPACE`
unset, `envconfig.Process` fails. -/
theorem envconfigProcess_required (lib : Library) (LookupEnv : String → Option String)
    (spec : envConfig)
    (hunset : LookupEnv "JOB_NAMESPACE" = none ∨
      LookupEnv "INIT_CONTAINER_CONFIGURATION_SERVICE_API_ENDPOINT" = none) :
    ∃ err, envconfigProcess lib LookupEnv spec = .error err := by
  unfold envconfigProcess
  rcases hunset with h | h
  · iterate 6 apply bind_error_left
    apply bind_error_right
    intro a
    exact processString_required_unset LookupEnv _ _ a h
  · iterate 7 apply bind_error_left
    apply bind_error_right
    intro a
    exact processString_required_unset LookupEnv _ _ a h

/-- A successful step hands its result to the next one. -/
theorem ok_bind {α β : Type} (a : α) (f : α → Except String β) :
    ((Except.ok a : Except String α) >>= f) = f a := rfl

/-- An optional `string` field never fails: it takes the variable when set and
the default otherwise.  With an empty default the field is skipped, which is
the same as storing the empty string when the field already holds it. -/
theorem processString_optional (LookupEnv : String → Option String) (key dflt : String)
    (set : envConfig → String → envConfig) (spec : envConfig)
    (hskip : dflt = "" → set spec "" = spec) :
    processString LookupEnv ⟨key, dflt, false⟩ set spec =
      .ok (set spec ((LookupEnv key).getD dflt)) := by
  cases hl : LookupEnv key with
  | some v => simp [processString, lookupValue, hl]
  | none =>
    by_cases hd : dflt = ""
    · subst hd
      simp [processString, lookupValue, hl, hskip rfl]
    · simp [processString, lookupValue, hl, hd]

/-- A required `string` field whose variable is set takes its value. -/
theorem processString_required_set (LookupEnv : String → Option String) (key v : String)
    (set : envConfig → String → envConfig) (spec : envConfig)
    (hset : LookupEnv key = some v) :
    processString LookupEnv ⟨key, "", true⟩ set spec = .ok (set spec v) := by
  simp [processString, lookupValue, hset]

/-- An `int` field with a default takes the decoded variable or default, and
fails exactly when that text does not decode. -/
theorem processInt_default (lib : Library) (LookupEnv : String → Option String)
    (key dflt fieldName : String) (set : envConfig → Int → envConfig) (spec : envConfig)
    (hd : dflt ≠ "") :
    processInt lib LookupEnv ⟨key, dflt, false⟩ fieldName set spec =
      match lib.ParseInt ((LookupEnv key).getD dflt) with
      | .ok n => .ok (set spec n)
      | .error err =>
        .error ("envconfig.Process: assigning " ++ key ++ " to " ++ fieldName ++
          ": converting \x27" ++ (LookupEnv key).getD dflt ++ "\x27 to type int. details: " ++
          err) := by
  cases hl : LookupEnv key with
  | some v => simp [processInt, lookupValue, hl]
  | none => simp [processInt, lookupValue, hl, hd]

/-- With both required variables set and the port decoded, `envconfig.Process`
succeeds, and every field holds its variable, or its default when unset; a
field without default is then the empty string. -/
theorem envconfigProcess_of_required (lib : Library) (LookupEnv : String → Option String)
    (ns ep : String) (port : Int)
    (hns : LookupEnv "JOB_NAMESPACE" = some ns)
    (hep : LookupEnv "INIT_CONTAINER_CONFIGURATION_SERVICE_API_ENDPOINT" = some ep)
    (hport : lib.ParseInt ((LookupEnv "RCV_PORT").getD "8080") = .ok port) :
    envconfigProcess lib LookupEnv envConfig.zero =
      .ok { Port := port
            Path := (LookupEnv "RCV_PATH").getD "/"
            Env := (LookupEnv "ENV").getD "local"
            ConfigurationServiceURL := (LookupEnv "CONFIGURATION_SERVICE").getD ""
            InitContainerConfigurationServiceAPIEndpoint := ep
            JobNamespace := ns
            KeptnAPIToken := (LookupEnv "KEPTN_API_TOKEN").getD ""
            InitContainerImage := (LookupEnv "INIT_CONTAINER_IMAGE").getD ""
            DefaultResourceLimitsCPU := (LookupEnv "DEFAULT_RESOURCE_LIMITS_CPU").getD ""
            DefaultResourceLimitsMemory := (LookupEnv "DEFAULT_RESOURCE_LIMITS_MEMORY").getD ""
            DefaultResourceRequestsCPU := (LookupEnv "DEFAULT_RESOURCE_REQUESTS_CPU").getD ""
            DefaultResourceRequestsMemory :=
              (LookupEnv "DEFAULT_RESOURCE_REQUESTS_MEMORY").getD "" } := by
  unfold envconfigProcess
  rw [processInt_default lib LookupEnv "RCV_PORT" "8080" "Port" _ _ (by decide), hport]
  simp only [ok_bind]
  rw [processString_optional LookupEnv "RCV_PATH" "/" _ _ (fun h => absurd h (by decide))]
  simp only [ok_bind]
  rw [processString_optional LookupEnv "ENV" "local" _ _ (fun h => absurd h (by decide))]
  simp only [ok_bind]
  rw [processString_optional LookupEnv "CONFIGURATION_SERVICE" "" _ _ (fun _ => rfl)]
  simp only [ok_bind]
  rw [processString_required_set LookupEnv _ ep _ _ hep]
  simp only [ok_bind]
  rw [processString_required_set LookupEnv _ ns _ _ hns]
  simp only [ok_bind]
  rw [processString_optional LookupEnv "KEPTN_API_TOKEN" "" _ _ (fun _ => rfl)]
  simp only [ok_bind]
  rw [processString_optional LookupEnv "INIT_CONTAINER_IMAGE" "" _ _ (fun _ => rfl)]
  simp only [ok_bind]
  rw [processString_optional LookupEnv "DEFAULT_RESOURCE_LIMITS_CPU" "" _ _ (fun _ => rfl)]
  simp only [ok_bind]
  rw [processString_optional LookupEnv "DEFAULT_RESOURCE_LIMITS_MEMORY" "" _ _ (fun _ => rfl)]
  simp only [ok_bind]
  rw [processString_optional LookupEnv "DEFAULT_RESOURCE_REQUESTS_CPU" "" _ _ (fun _ => rfl)]
  simp only [ok_bind]
  rw [processString_optional LookupEnv "DEFAULT_RESOURCE_REQUESTS_MEMORY" "" _ _ (fun _ => rfl)]

/-- When the port does not decode, `envconfig.Process` fails. -/
theorem envconfigProcess_port_error (lib : Library) (LookupEnv : String → Option String)
    (perr : String)
    (hport : lib.ParseInt ((LookupEnv "RCV_PORT").getD "8080") = .error perr) :
    ∃ err, envconfigProcess lib LookupEnv envConfig.zero = .error err := by
  unfold envconfigProcess
  iterate 11 apply bind_error_left
  rw [processInt_default lib LookupEnv "RCV_PORT" "8080" "Port" _ _ (by decide), hport]
  exact ⟨_, rfl⟩

/-- The function `_main` writes `keptnOptions` only. -/
theorem _main_globals (lib : Library) (g : Globals) (args : List String) (env : envConfig) :
    (_main lib g args env).globals.env = g.env ∧
    (_main lib g args env).globals.DefaultResourceRequirements =
      g.DefaultResourceRequirements := by
  unfold _main
  dsimp only
  split
  · exact ⟨rfl, rfl⟩
  · split <;> exact ⟨rfl, rfl⟩

/-- A call of `processKeptnCloudEvent` leaves the package-level variables as
they were. -/
theorem process_globals (lib : Library) (g : Globals) (event : Event) :
    (processKeptnCloudEvent lib g event).globals = g := by
  rcases process_cases lib g event with ⟨err, hk⟩ | ⟨k, hk, ht⟩ | ⟨k, err, hk, ht, hd⟩ |
    ⟨k, d, hk, ht, hd⟩
  · rw [process_of_newKeptn_error lib g event err hk]
  · rw [process_of_not_triggered lib g event k hk ht]
  · rw [process_of_decode_error lib g event k err hk ht hd]
  · rw [process_of_decoded lib g event k d hk ht hd]

/-- The settings of a started handler are read from the package-level
variables. -/
theorem process_started_settings (lib : Library) (g : Globals) (event : Event)
    (h : EventHandler) (hs : h ∈ (processKeptnCloudEvent lib g event).started) :
    h.JobSettings =
      { JobNamespace := g.env.JobNamespace
        InitContainerConfigurationServiceAPIEndpoint :=
          g.env.InitContainerConfigurationServiceAPIEndpoint
        KeptnAPIToken := g.env.KeptnAPIToken
        InitContainerImage := g.env.InitContainerImage
        DefaultResourceRequirements := g.DefaultResourceRequirements } := by
  rcases process_cases lib g event with ⟨err, hk⟩ | ⟨k, hk, ht⟩ | ⟨k, err, hk, ht, hd⟩ |
    ⟨k, d, hk, ht, hd⟩
  · rw [process_of_newKeptn_error lib g event err hk] at hs
    simp [Run.started, startedHandlers] at hs
  · rw [process_of_not_triggered lib g event k hk ht] at hs
    simp [Run.started, startedHandlers] at hs
  · rw [process_of_decode_error lib g event k err hk ht hd] at hs
    simp [Run.started, startedHandlers] at hs
  · rw [process_of_decoded lib g event k d hk ht hd] at hs
    simp only [Run.started, startedHandlers, List.mem_singleton] at hs
    rw [hs]

/-- The run of `main` once the environment is read and the default resource
requirements are created: `_main` is called with both stored. -/
theorem main_of_resources (lib : Library) (LookupEnv : String → Option String)
    (osArgs : List String) (env : envConfig) (r : ResourceRequirements)
    (henv : envconfigProcess lib LookupEnv envConfig.zero = .ok env)
    (hr : lib.CreateResourceRequirements env.DefaultResourceLimitsCPU
      env.DefaultResourceLimitsMemory env.DefaultResourceRequestsCPU
      env.DefaultResourceRequestsMemory = .ok r) :
    main lib LookupEnv osArgs =
      MainResult.entered
        { keptnOptions := KeptnOpts.zero, env := env, DefaultResourceRequirements := some r }
        (_main lib
          { keptnOptions := KeptnOpts.zero, env := env, DefaultResourceRequirements := some r }
          osArgs.tail env) := by
  simp [main, Globals.initial, henv, hr]

/-- The run of `main` when the default resource requirements are refused. -/
theorem main_of_resources_error (lib : Library) (LookupEnv : String → Option String)
    (osArgs : List String) (env : envConfig) (err : String)
    (henv : envconfigProcess lib LookupEnv envConfig.zero = .ok env)
    (hr : lib.CreateResourceRequirements env.DefaultResourceLimitsCPU
      env.DefaultResourceLimitsMemory env.DefaultResourceRequestsCPU
      env.DefaultResourceRequestsMemory = .error err) :
    main lib LookupEnv osArgs =
      MainResult.fatal ("unable to create default resource requirements: " ++ err) := by
  simp [main, Globals.initial, henv, hr]

/-- The run of `main` when the environment cannot be read. -/
theorem main_of_env_error (lib : Library) (LookupEnv : String → Option String)
    (osArgs : List String) (err : String)
    (henv : envconfigProcess lib LookupEnv envConfig.zero = .error err) :
    main lib LookupEnv osArgs = MainResult.fatal ("Failed to process env var: " ++ err) := by
  simp [main, Globals.initial, henv]

/-- C6: once the environment is read, a configuration whose four default
resource strings `CreateResourceRequirements` refuses makes `main` exit fatally
before `_main` is called, so no receiver is started; and when
`CreateResourceRequirements` succeeds, `main` calls `_main` with
`DefaultResourceRequirements` set to the value it returned. -/
theorem invalid_default_resources_fatal_to_startup (lib : Library)
    (LookupEnv : String → Option String) (osArgs : List String) (env : envConfig)
    (henv : envconfigProcess lib LookupEnv envConfig.zero = .ok env) :
    (∀ err, lib.CreateResourceRequirements env.DefaultResourceLimitsCPU
        env.DefaultResourceLimitsMemory env.DefaultResourceRequestsCPU
        env.DefaultResourceRequestsMemory = .error err →
      (main lib LookupEnv osArgs).exitedFatally = true ∧
      (main lib LookupEnv osArgs).calledMain = false ∧
      (main lib LookupEnv osArgs).receiverStarted = false) ∧
    (∀ r, lib.CreateResourceRequirements env.DefaultResourceLimitsCPU
        env.DefaultResourceLimitsMemory env.DefaultResourceRequestsCPU
        env.DefaultResourceRequestsMemory = .ok r →
      ∃ g, main lib LookupEnv osArgs = MainResult.entered g (_main lib g osArgs.tail env) ∧
        g.env = env ∧ g.DefaultResourceRequirements = some r) := by
  constructor
  · intro err hr
    rw [main_of_resources_error lib LookupEnv osArgs env err henv hr]
    exact ⟨rfl, rfl, rfl⟩
  · intro r hr
    exact ⟨_, main_of_resources lib LookupEnv osArgs env r henv hr, rfl, rfl⟩

/-- Witness for C6: with `DEFAULT_RESOURCE_LIMITS_CPU=abc` the environment is
read, the resolver refuses the quantity, and `main` ends before `_main`. -/
theorem invalid_default_resources_fatal_to_startup_witness :
    exampleLibrary.CreateResourceRequirements "abc" "" "" "" = .error "InvalidQuantity" ∧
    (main exampleLibrary badQuantityEnvironment ["./main"]).exitedFatally = true ∧
    (main exampleLibrary badQuantityEnvironment ["./main"]).calledMain = false ∧
    (main exampleLibrary badQuantityEnvironment ["./main"]).receiverStarted = false :=
  ⟨rfl,
   (invalid_default_resources_fatal_to_startup exampleLibrary badQuantityEnvironment ["./main"]
      { minimalConfig with DefaultResourceLimitsCPU := "abc" } rfl).1 "InvalidQuantity" rfl⟩

/-- C7: after startup every handler that `processKeptnCloudEvent` starts
carries exactly the namespace, endpoint, token and image read from the
environment at startup and the resource requirements created at startup,
whatever the event; and the call leaves the package-level variables, `env` and
`DefaultResourceRequirements` among them, unchanged. -/
theorem job_settings_fixed_at_startup (lib : Library) (LookupEnv : String → Option String)
    (osArgs : List String) (g : Globals) (s : Startup) (event : Event) (h : EventHandler)
    (hmain : main lib LookupEnv osArgs = MainResult.entered g s)
    (hs : h ∈ (processKeptnCloudEvent lib s.globals event).started) :
    ∃ env r, envconfigProcess lib LookupEnv envConfig.zero = .ok env ∧
      lib.CreateResourceRequirements env.DefaultResourceLimitsCPU
        env.DefaultResourceLimitsMemory env.DefaultResourceRequestsCPU
        env.DefaultResourceRequestsMemory = .ok r ∧
      s.globals.env = env ∧ s.globals.DefaultResourceRequirements = some r ∧
      h.JobSettings =
        { JobNamespace := env.JobNamespace
          InitContainerConfigurationServiceAPIEndpoint :=
            env.InitContainerConfigurationServiceAPIEndpoint
          KeptnAPIToken := env.KeptnAPIToken
          InitContainerImage := env.InitContainerImage
          DefaultResourceRequirements := some r } ∧
      (processKeptnCloudEvent lib s.globals event).globals = s.globals := by
  cases henv : envconfigProcess lib LookupEnv envConfig.zero with
  | error err =>
    rw [main_of_env_error lib LookupEnv osArgs err henv] at hmain
    cases hmain
  | ok env =>
    cases hr : lib.CreateResourceRequirements env.DefaultResourceLimitsCPU
        env.DefaultResourceLimitsMemory env.DefaultResourceRequestsCPU
        env.DefaultResourceRequestsMemory with
    | error err =>
      rw [main_of_resources_error lib LookupEnv osArgs env err henv hr] at hmain
      cases hmain
    | ok r =>
      rw [main_of_resources lib LookupEnv osArgs env r henv hr] at hmain
      injection hmain with hg hstart
      have hglob := _main_globals lib
        { keptnOptions := KeptnOpts.zero, env := env, DefaultResourceRequirements := some r }
        osArgs.tail env
      rw [hstart] at hglob
      have hset := process_started_settings lib s.globals event h hs
      rw [hglob.1, hglob.2] at hset
      exact ⟨env, r, rfl, hr, hglob.1, hglob.2, hset, process_globals lib s.globals event⟩

/-- Witness for C7: startup in `minimalEnvironment`, then `triggeredEvent`; the
handler started carries the settings read at startup. -/
theorem job_settings_fixed_at_startup_witness :
    main exampleLibrary minimalEnvironment ["./main"] =
      MainResult.entered minimalGlobals
        (_main exampleLibrary minimalGlobals [] minimalConfig) ∧
    minimalHandler ∈ (processKeptnCloudEvent exampleLibrary
      (_main exampleLibrary minimalGlobals [] minimalConfig).globals triggeredEvent).started ∧
    minimalHandler.JobSettings =
      { JobNamespace := "jobs"
        InitContainerConfigurationServiceAPIEndpoint := "http://configuration-service:8080"
        KeptnAPIToken := ""
        InitContainerImage := ""
        DefaultResourceRequirements := some unsetResources } ∧
    (processKeptnCloudEvent exampleLibrary
      (_main exampleLibrary minimalGlobals [] minimalConfig).globals triggeredEvent).globals =
      (_main exampleLibrary minimalGlobals [] minimalConfig).globals := by
  obtain ⟨env, r, henv, hr, he, hd, hset, hg⟩ :=
    job_settings_fixed_at_startup exampleLibrary minimalEnvironment ["./main"] minimalGlobals
      (_main exampleLibrary minimalGlobals [] minimalConfig) triggeredEvent minimalHandler
      rfl (by decide)
  exact ⟨rfl, by decide, rfl, hg⟩

/-- C8 as stated fails: `minimalEnvironment` sets neither `KEPTN_API_TOKEN`
nor `INIT_CONTAINER_IMAGE` nor any of the four default resource strings, and
startup reaches the receiver. -/
theorem startup_without_optional_settings :
    minimalEnvironment "KEPTN_API_TOKEN" = none ∧
    minimalEnvironment "INIT_CONTAINER_IMAGE" = none ∧
    minimalEnvironment "DEFAULT_RESOURCE_LIMITS_CPU" = none ∧
    minimalEnvironment "DEFAULT_RESOURCE_LIMITS_MEMORY" = none ∧
    minimalEnvironment "DEFAULT_RESOURCE_REQUESTS_CPU" = none ∧
    minimalEnvironment "DEFAULT_RESOURCE_REQUESTS_MEMORY" = none ∧
    (main exampleLibrary minimalEnvironment ["./main"]).receiverStarted = true ∧
    (main exampleLibrary minimalEnvironment ["./main"]).exitedFatally = false := by
  decide

/-- C8, amended: in every environment in which `JOB_NAMESPACE` or
`INIT_CONTAINER_CONFIGURATION_SERVICE_API_ENDPOINT` is unset, `main` exits
fatally before `_main` is called and the receiver is not started.
`KEPTN_API_TOKEN`, `INIT_CONTAINER_IMAGE` and the four default resource strings
are not required: whenever the environment is read, each of these fields holds
its variable, and the empty string when the variable is unset; and with the two
required variables set and the port decoded the environment is read, whether
they are set or not. -/
theorem required_settings_missing_fatal (lib : Library) (LookupEnv : String → Option String)
    (osArgs : List String) :
    ((LookupEnv "JOB_NAMESPACE" = none ∨
        LookupEnv "INIT_CONTAINER_CONFIGURATION_SERVICE_API_ENDPOINT" = none) →
      (main lib LookupEnv osArgs).exitedFatally = true ∧
      (main lib LookupEnv osArgs).calledMain = false ∧
      (main lib LookupEnv osArgs).receiverStarted = false) ∧
    (∀ env, envconfigProcess lib LookupEnv envConfig.zero = .ok env →
      env.KeptnAPIToken = (LookupEnv "KEPTN_API_TOKEN").getD "" ∧
      env.InitContainerImage = (LookupEnv "INIT_CONTAINER_IMAGE").getD "" ∧
      env.DefaultResourceLimitsCPU = (LookupEnv "DEFAULT_RESOURCE_LIMITS_CPU").getD "" ∧
      env.DefaultResourceLimitsMemory = (LookupEnv "DEFAULT_RESOURCE_LIMITS_MEMORY").getD "" ∧
      env.DefaultResourceRequestsCPU = (LookupEnv "DEFAULT_RESOURCE_REQUESTS_CPU").getD "" ∧
      env.DefaultResourceRequestsMemory =
        (LookupEnv "DEFAULT_RESOURCE_REQUESTS_MEMORY").getD "") ∧
    (∀ ns ep port, LookupEnv "JOB_NAMESPACE" = some ns →
      LookupEnv "INIT_CONTAINER_CONFIGURATION_SERVICE_API_ENDPOINT" = some ep →
      lib.ParseInt ((LookupEnv "RCV_PORT").getD "8080") = .ok port →
      ∃ env, envconfigProcess lib LookupEnv envConfig.zero = .ok env ∧
        env.JobNamespace = ns ∧ env.InitContainerConfigurationServiceAPIEndpoint = ep ∧
        env.Port = port) := by
  refine ⟨?_, ?_, ?_⟩
  · intro hunset
    obtain ⟨err, henv⟩ := envconfigProcess_required lib LookupEnv envConfig.zero hunset
    rw [main_of_env_error lib LookupEnv osArgs err henv]
    exact ⟨rfl, rfl, rfl⟩
  · intro env henv
    cases hns : LookupEnv "JOB_NAMESPACE" with
    | none =>
      obtain ⟨err, herr⟩ := envconfigProcess_required lib LookupEnv envConfig.zero (Or.inl hns)
      rw [herr] at henv
      cases henv
    | some ns =>
      cases hep : LookupEnv "INIT_CONTAINER_CONFIGURATION_SERVICE_API_ENDPOINT" with
      | none =>
        obtain ⟨err, herr⟩ :=
          envconfigProcess_required lib LookupEnv envConfig.zero (Or.inr hep)
        rw [herr] at henv
        cases henv
      | some ep =>
        cases hport : lib.ParseInt ((LookupEnv "RCV_PORT").getD "8080") with
        | error perr =>
          obtain ⟨err, herr⟩ := envconfigProcess_port_error lib LookupEnv perr hport
          rw [herr] at henv
          cases henv
        | ok port =>
          rw [envconfigProcess_of_required lib LookupEnv ns ep port hns hep hport] at henv
          injection henv with henv
          subst henv
          exact ⟨rfl, rfl, rfl, rfl, rfl, rfl⟩
  · intro ns ep port hns hep hport
    exact ⟨_, envconfigProcess_of_required lib LookupEnv ns ep port hns hep hport,
      rfl, rfl, rfl⟩

/-- Witness for amended C8: an environment that sets `JOB_NAMESPACE` only ends
startup in `main`; `minimalEnvironment` is read and leaves the token empty. -/
theorem required_settings_missing_fatal_witness :
    lookupIn [("JOB_NAMESPACE", "jobs")]
      "INIT_CONTAINER_CONFIGURATION_SERVICE_API_ENDPOINT" = none ∧
    ((main exampleLibrary (lookupIn [("JOB_NAMESPACE", "jobs")]) ["./main"]).exitedFatally = true ∧
     (main exampleLibrary (lookupIn [("JOB_NAMESPACE", "jobs")]) ["./main"]).calledMain = false ∧
     (main exampleLibrary (lookupIn [("JOB_NAMESPACE", "jobs")]) ["./main"]).receiverStarted =
      false) ∧
    envconfigProcess exampleLibrary minimalEnvironment envConfig.zero = .ok minimalConfig ∧
    minimalConfig.KeptnAPIToken = (minimalEnvironment "KEPTN_API_TOKEN").getD "" :=
  ⟨by decide,
   (required_settings_missing_fatal exampleLibrary (lookupIn [("JOB_NAMESPACE", "jobs")])
     ["./main"]).1 (Or.inr (by decide)),
   rfl,
   ((required_settings_missing_fatal exampleLibrary minimalEnvironment ["./main"]).2.1
     minimalConfig rfl).1⟩

/-- What `_main` writes to `keptnOptions` on every path: the local file system
is switched on exactly for `Env` equal to `local`, and the configuration
service URL is taken from the configuration. -/
theorem _main_keptnOptions (lib : Library) (g : Globals) (args : List String)
    (env : envConfig) :
    (_main lib g args env).globals.keptnOptions =
      { UseLocalFileSystem :=
          if env.Env = "local" then true else g.keptnOptions.UseLocalFileSystem
        ConfigurationServiceURL := env.ConfigurationServiceURL } := by
  unfold _main
  dsimp only
  by_cases hlocal : env.Env = "local"
  · simp only [hlocal, if_true]
    split
    · rfl
    · split <;> rfl
  · simp only [hlocal, if_false]
    split
    · rfl
    · split <;> rfl

/-- C9 fails on the code: with `Env` equal to `runlocal`, `_main` starts the
receiver and leaves `keptnOptions.UseLocalFileSystem` false; with `Env` equal
to `local` it sets it. -/
theorem runlocal_leaves_UseLocalFileSystem_false :
    runlocalConfig.Env = "runlocal" ∧
    (_main exampleLibrary Globals.initial [] runlocalConfig).outcome =
      StartupEnd.receiving { Protocol := { Path := "/", Port := 8080 } } ∧
    (_main exampleLibrary Globals.initial []
      runlocalConfig).globals.keptnOptions.UseLocalFileSystem = false ∧
    (_main exampleLibrary Globals.initial []
      minimalConfig).globals.keptnOptions.UseLocalFileSystem = true := by
  decide

end JobExecutor
